import Mathlib

/-!
Verification of the incident data-synchronization hooks of
`keep-ui/app/(keep)/providers/filter-context/types.ts`.

The hooks build SWR resource keys from their parameters, gate fetching on
the HTTP client's readiness, and re-trigger revalidation on pusher events.
We embed the key construction (including the `URLSearchParams` serializer),
the readiness gating of each read hook, and an operational model of the
poll hooks' subscribe/emit/unsubscribe lifecycle.
-/

namespace Keep

/-! ### UTF-8 and `application/x-www-form-urlencoded` serialization

`URLSearchParams.toString()` serializes each name/value pair with the
x-www-form-urlencoded rules: UTF-8 encode, keep `[A-Za-z0-9*\-._]`
bytes, turn space into `+`, percent-encode every other byte with
uppercase hex digits. -/

/-- UTF-8 encoding of a single code point, as a list of byte values. -/
def utf8Bytes (c : Char) : List Nat :=
  let n := c.toNat
  if n < 0x80 then [n]
  else if n < 0x800 then [0xC0 + n / 0x40, 0x80 + n % 0x40]
  else if n < 0x10000 then
    [0xE0 + n / 0x1000, 0x80 + (n / 0x40) % 0x40, 0x80 + n % 0x40]
  else
    [0xF0 + n / 0x40000, 0x80 + (n / 0x1000) % 0x40,
     0x80 + (n / 0x40) % 0x40, 0x80 + n % 0x40]

/-- UTF-8 encoding of a string, as a list of byte values. -/
def strBytes (s : String) : List Nat :=
  (s.toList.map utf8Bytes).flatten

/-- Uppercase hexadecimal digit for `n < 16`. -/
def hexDigit (n : Nat) : Char :=
  if n < 10 then Char.ofNat (48 + n) else Char.ofNat (55 + n)

/-- Bytes left intact by the x-www-form-urlencoded serializer:
ASCII alphanumerics and `*`, `-`, `.`, `_`. -/
def isFormUrlSafe (b : Nat) : Bool :=
  (48 ≤ b && b ≤ 57) || (65 ≤ b && b ≤ 90) || (97 ≤ b && b ≤ 122) ||
  b == 42 || b == 45 || b == 46 || b == 95

/-- Serialization of one byte under x-www-form-urlencoded. -/
def formUrlByte (b : Nat) : String :=
  if b == 32 then "+"
  else if isFormUrlSafe b then String.singleton (Char.ofNat b)
  else "%" ++ String.singleton (hexDigit (b / 16 % 16)) ++
       String.singleton (hexDigit (b % 16))

/-- x-www-form-urlencoded serialization of a string. -/
def formUrlEncode (s : String) : String :=
  String.join ((strBytes s).map formUrlByte)

/-! ### `URLSearchParams`

An ordered list of name/value pairs.  `set` replaces the value in place
when the name is already present and appends otherwise; `toString` joins
the encoded pairs with `&`. -/

/-- The state of a `URLSearchParams` object: its name/value pairs in order. -/
abbrev SearchParams : Type := List (String × String)

/-- `URLSearchParams.set(name, value)`: replace in place if present, else append. -/
def SearchParams.set (ps : SearchParams) (name value : String) : SearchParams :=
  if ps.any (fun p => p.1 == name) then
    ps.map (fun p => if p.1 == name then (name, value) else p)
  else
    ps ++ [(name, value)]

/-- `URLSearchParams.size`: the number of pairs. -/
def SearchParams.size (ps : SearchParams) : Nat := ps.length

/-- `URLSearchParams.toString()`: `&`-joined x-www-form-urlencoded pairs. -/
def SearchParams.toQueryString (ps : SearchParams) : String :=
  String.intercalate "&" (ps.map (fun p => formUrlEncode p.1 ++ "=" ++ formUrlEncode p.2))

/-! ### `useIncidents` key construction

`candidate` and `predicted` are tri-state (`boolean | null`, with
`undefined` possible at the call site); both JS guards —
`typeof candidate === "boolean"` and
`predicted !== undefined && predicted !== null` — include the parameter
exactly when it is an actual boolean, so both are embedded as
`Option Bool`.  `limit` and `offset` have defaults, so the
`!== undefined` guards are always true.  `sorting` has a non-nullable
type and a default, so `if (sorting)` is always true.  `if (cel)` is
string truthiness: include exactly when nonempty. -/

/-- JavaScript `Boolean.prototype.toString`. -/
def boolToString (b : Bool) : String := if b then "true" else "false"

/-- The sorting parameter `{ id: string; desc: boolean }`. -/
structure Sorting where
  id : String
  desc : Bool
deriving DecidableEq, Repr

/-- Application of `candidate`'s default initializer (line 43,
`candidate: boolean | null = true`): an argument of `undefined` (the
outer `none`) becomes `true`; a passed value — `null` (`some none`) or a
boolean — is kept. -/
def candidateArg (arg : Option (Option Bool)) : Option Bool :=
  match arg with
  | none => some true
  | some v => v

/-- Application of `predicted`'s default initializer (line 44,
`predicted: boolean | null = null`): an argument of `undefined` becomes
`null`; a passed value is kept. -/
def predictedArg (arg : Option (Option Bool)) : Option Bool :=
  match arg with
  | none => none
  | some v => v

/-- The `filtersParams` object built by `useIncidents` (lines 55-79). -/
def useIncidentsParams (candidate predicted : Option Bool) (limit offset : Nat)
    (sorting : Sorting) (cel : String) : SearchParams :=
  let fp : SearchParams := []
  let fp := match candidate with
    | some b => fp.set "candidate" (boolToString b)
    | none => fp
  let fp := match predicted with
    | some b => fp.set "predicted" (boolToString b)
    | none => fp
  let fp := fp.set "limit" (toString limit)
  let fp := fp.set "offset" (toString offset)
  let fp := fp.set "sorting" (if sorting.desc then "-" ++ sorting.id else sorting.id)
  let fp := if cel = "" then fp else fp.set "cel" cel
  fp

/-- The SWR key computed by `useIncidents` (lines 81-85): `null` while the
client is not ready, else `/incidents` with the query string appended when
any parameter is present. -/
def useIncidentsKey (ready : Bool) (candidate predicted : Option Bool)
    (limit offset : Nat) (sorting : Sorting) (cel : String) : Option String :=
  let fp := useIncidentsParams candidate predicted limit offset sorting cel
  if ready then
    some ("/incidents" ++ (if fp.size != 0 then "?" ++ fp.toQueryString else ""))
  else
    none

/-! ### Keys of the remaining read hooks

Template literals do not run the x-www-form-urlencoded serializer, so
these keys interpolate their arguments verbatim. -/

/-- The SWR key of `useIncidentAlerts` (lines 120-124): gated only on
readiness; `incidentId` is interpolated with no falsy-check. -/
def useIncidentAlertsKey (ready : Bool) (incidentId : String)
    (limit offset : Nat) : Option String :=
  if ready then
    some ("/incidents/" ++ incidentId ++ "/alerts?limit=" ++ toString limit
      ++ "&offset=" ++ toString offset)
  else none

/-- The SWR key of `useIncidentFutureIncidents` (line 139). -/
def useIncidentFutureIncidentsKey (ready : Bool) (incidentId : String) :
    Option String :=
  if ready then some ("/incidents/" ++ incidentId ++ "/future_incidents") else none

/-- The SWR key of `useIncident` (line 154):
`api.isReady() && incidentId ? ... : null`, where a string is truthy
exactly when it is nonempty. -/
def useIncidentKey (ready : Bool) (incidentId : String) : Option String :=
  if ready && incidentId != "" then some ("/incidents/" ++ incidentId) else none

/-- The SWR key of `useIncidentWorkflowExecutions` (lines 170-173). -/
def useIncidentWorkflowExecutionsKey (ready : Bool) (incidentId : String)
    (limit offset : Nat) : Option String :=
  if ready then
    some ("/incidents/" ++ incidentId ++ "/workflows?limit=" ++ toString limit
      ++ "&offset=" ++ toString offset)
  else none

/-- The SWR key of `useIncidentsMeta` (line 251). -/
def useIncidentsMetaKey (ready : Bool) : Option String :=
  if ready then some "/incidents/meta" else none

/-! ### The caching/fetch collaborator (SWR)

`useSWR` itself is a third-party dependency, so its observable contract is
embedded from its documented semantics, which the repository itself
corroborates: `useIncidents` (line 107) explicitly or-s
`!options.fallbackData && !api.isReady()` into `isLoading` precisely
because the collaborator alone reports `isLoading = false` while the key
function returns `null`. -/

/-- Modelled from the spec: the caching/fetch collaborator (`useSWR`),
whose source is outside this fragment.  Conditional fetching: a `null`
key is the "skip" sentinel, so a request is issued exactly when the key
is non-null. -/
def swrIssuesFetch (key : Option String) : Bool := key.isSome

/-- Modelled from the spec: the caching/fetch collaborator's `isLoading`
flag, whose source is outside this fragment.  `isLoading` is true exactly
while a request for the current key is in flight and has not yet loaded
data (`resolved = false`); with a `null` key there is no request, so
`isLoading` is false. -/
def swrIsLoading (key : Option String) (resolved : Bool) : Bool :=
  key.isSome && !resolved

/-- The `isLoading` returned by `useIncidents` (line 107):
`swrValue.isLoading || (!options.fallbackData && !api.isReady())`. -/
def useIncidentsIsLoading (ready hasFallbackData resolved : Bool)
    (candidate predicted : Option Bool) (limit offset : Nat)
    (sorting : Sorting) (cel : String) : Bool :=
  swrIsLoading (useIncidentsKey ready candidate predicted limit offset sorting cel)
      resolved
    || (!hasFallbackData && !ready)

/-- The `isLoading` returned by `useIncident`: the collaborator's flag,
unchanged. -/
def useIncidentIsLoading (ready : Bool) (incidentId : String)
    (resolved : Bool) : Bool :=
  swrIsLoading (useIncidentKey ready incidentId) resolved

/-- The `isLoading` returned by `useIncidentAlerts`: the collaborator's
flag, unchanged. -/
def useIncidentAlertsIsLoading (ready : Bool) (incidentId : String)
    (limit offset : Nat) (resolved : Bool) : Bool :=
  swrIsLoading (useIncidentAlertsKey ready incidentId limit offset) resolved

/-- The `isLoading` returned by `useIncidentFutureIncidents`: the
collaborator's flag, unchanged. -/
def useIncidentFutureIncidentsIsLoading (ready : Bool) (incidentId : String)
    (resolved : Bool) : Bool :=
  swrIsLoading (useIncidentFutureIncidentsKey ready incidentId) resolved

/-- The `isLoading` returned by `useIncidentWorkflowExecutions`: the
collaborator's flag, unchanged. -/
def useIncidentWorkflowExecutionsIsLoading (ready : Bool) (incidentId : String)
    (limit offset : Nat) (resolved : Bool) : Bool :=
  swrIsLoading (useIncidentWorkflowExecutionsKey ready incidentId limit offset)
    resolved

/-- The `isLoading` returned by `useIncidentsMeta`: the collaborator's
flag, unchanged. -/
def useIncidentsMetaIsLoading (ready resolved : Bool) : Bool :=
  swrIsLoading (useIncidentsMetaKey ready) resolved

/-! ### The push-subscription channel and the poll hooks

`useWebsocket` (from `usePusher`) is outside this fragment, so its
`bind`/`unbind` capability is embedded from the spec's interface
description.  Handlers are compared by reference in the channel, so they
are embedded as `Nat` identifiers; each poll hook's `handleIncoming` is a
`useCallback`-stable reference, one identifier per mounted hook. -/

/-- The pusher event payload `{ incident_id: string | null }`
(`IncidentUpdatePayload`, lines 30-32). -/
structure IncidentUpdatePayload where
  incident_id : Option String
deriving DecidableEq, Repr

/-- Modelled from the spec: the push-subscription capability of
`useWebsocket` (source outside this fragment): the bound
(event, handler) pairs, in binding order. -/
abbrev Channel : Type := List (String × Nat)

/-- Modelled from the spec: `bind(event, handler)` adds a subscription of
`handler` to `event`. -/
def bindEvent (ch : Channel) (event : String) (handler : Nat) : Channel :=
  ch ++ [(event, handler)]

/-- Modelled from the spec: `unbind(event, handler)` removes the
subscriptions of exactly that (event, handler) pair. -/
def unbindEvent (ch : Channel) (event : String) (handler : Nat) : Channel :=
  ch.filter (fun b => !(b.1 == event && b.2 == handler))

/-- The handlers that run when `event` is emitted, in binding order. -/
def firedHandlers (ch : Channel) (event : String) : List Nat :=
  (ch.filter (fun b => b.1 == event)).map (fun b => b.2)

/-- Mounting `usePollIncidentAlerts` (`useEffect`, line 207): bind the
hook's `handleIncoming` to `"incident-change"`. -/
def pollIncidentAlertsMount (ch : Channel) (handler : Nat) : Channel :=
  bindEvent ch "incident-change" handler

/-- Unmounting `usePollIncidentAlerts` (cleanup, line 209): unbind the
same (event, handler) pair the effect bound. -/
def pollIncidentAlertsUnmount (ch : Channel) (handler : Nat) : Channel :=
  unbindEvent ch "incident-change" handler

/-- `usePollIncidentAlerts`' `handleIncoming` (lines 200-205): one
`mutate()` call — one revalidation of the hook's incident-alerts
resource — with the payload unused. -/
def pollIncidentAlertsHandleIncoming (data : IncidentUpdatePayload)
    (alertsRevalidations : Nat) : Nat :=
  alertsRevalidations + 1

/-- `usePollIncidentComments`' `handleIncoming` (lines 183-188): one
`mutateIncidentActivity()` call, with the payload unused. -/
def pollIncidentCommentsHandleIncoming (data : IncidentUpdatePayload)
    (activityRevalidations : Nat) : Nat :=
  activityRevalidations + 1

/-- The state observable from one mounted `usePollIncidents`: the shared
channel, the number of `mutateIncidents()` calls, the hook's
`incidentChangeToken` React state, and the UUID supply.  `uuidv4()` is
embedded as a supply of distinct values — each call consumes the next
unused one — which is sound for freshness statements only. -/
structure PollIncidentsState where
  channel : Channel
  mutateCalls : Nat
  incidentChangeToken : Option Nat
  uuidSupply : Nat
deriving DecidableEq, Repr

/-- `usePollIncidents`' `handleIncoming` (lines 219-225): call
`mutateIncidents()` and set `incidentChangeToken` to a fresh `uuidv4()`. -/
def pollIncidentsHandleIncoming (data : IncidentUpdatePayload)
    (s : PollIncidentsState) : PollIncidentsState :=
  { s with
    mutateCalls := s.mutateCalls + 1,
    incidentChangeToken := some s.uuidSupply,
    uuidSupply := s.uuidSupply + 1 }

/-- The `useEffect` body of `usePollIncidents` (lines 227-236): when
`paused`, return before binding; otherwise bind `handleIncoming` to
`"incident-change"`. -/
def pollIncidentsEffect (paused : Bool) (handler : Nat)
    (s : PollIncidentsState) : PollIncidentsState :=
  if paused then s
  else { s with channel := bindEvent s.channel "incident-change" handler }

/-- The `useEffect` cleanup (lines 233-235): when the effect ran
(`paused = false`), unbind the same pair; the early-returning paused
effect installed no cleanup. -/
def pollIncidentsCleanup (paused : Bool) (handler : Nat)
    (s : PollIncidentsState) : PollIncidentsState :=
  if paused then s
  else { s with channel := unbindEvent s.channel "incident-change" handler }

/-- React re-runs the effect when `paused` (a dependency, line 236)
changes: the previous effect's cleanup runs, then the effect with the new
value. -/
def pollIncidentsToggle (oldPaused newPaused : Bool) (handler : Nat)
    (s : PollIncidentsState) : PollIncidentsState :=
  pollIncidentsEffect newPaused handler
    (pollIncidentsCleanup oldPaused handler s)

/-- Emitting `"incident-change"` with payload `data`: the hook's
`handleIncoming` runs once per current binding of `handler` to that
event. -/
def pollIncidentsEmit (handler : Nat) (data : IncidentUpdatePayload)
    (s : PollIncidentsState) : PollIncidentsState :=
  ((firedHandlers s.channel "incident-change").filter
      (fun hd => hd == handler)).foldl
    (fun acc _ => pollIncidentsHandleIncoming data acc) s

/-- Emitting `"incident-change"` for `usePollIncidentAlerts`: the hook's
`handleIncoming` runs once per current binding of `handler` to that
event, each run one revalidation of the hook's alerts resource. -/
def pollIncidentAlertsEmit (handler : Nat) (data : IncidentUpdatePayload)
    (ch : Channel) (alertsRevalidations : Nat) : Nat :=
  ((firedHandlers ch "incident-change").filter (fun hd => hd == handler)).foldl
    (fun acc _ => pollIncidentAlertsHandleIncoming data acc) alertsRevalidations

/-! ### Helper lemmas -/

/-- Normal form of `useIncidents`' `filtersParams`: the parameter names
are pairwise distinct, so every `set` call appends. -/
theorem useIncidentsParams_eq (c p : Option Bool) (l o : Nat) (s : Sorting)
    (cel : String) :
    useIncidentsParams c p l o s cel =
      (match c with
        | some b => [("candidate", boolToString b)]
        | none => []) ++
      (match p with
        | some b => [("predicted", boolToString b)]
        | none => []) ++
      [("limit", toString l), ("offset", toString o),
       ("sorting", if s.desc then "-" ++ s.id else s.id)] ++
      (if cel = "" then [] else [("cel", cel)]) := by
  by_cases hcel : cel = "" <;>
    cases c <;> cases p <;>
      simp [useIncidentsParams, SearchParams.set, hcel]

/-- A fold whose step ignores the element iterates the step
length-many times. -/
theorem foldl_const {α β : Type} (f : α → α) (s : α) (l : List β) :
    l.foldl (fun acc _ => f acc) s = f^[l.length] s := by
  induction l generalizing s with
  | nil => rfl
  | cons b tl ih => simp [List.foldl_cons, ih, Function.iterate_succ_apply]

/-- Firing count of one handler on an emission equals the number of
bindings of that (event, handler) pair. -/
theorem firedHandlers_count (ch : Channel) (e : String) (h : Nat) :
    ((firedHandlers ch e).filter (fun hd => hd == h)).length =
      ch.count (e, h) := by
  induction ch with
  | nil => rfl
  | cons b tl ih =>
      obtain ⟨be, bh⟩ := b
      by_cases h1 : be = e
      · subst h1
        by_cases h2 : bh = h
        · subst h2
          simp [firedHandlers, List.filter_cons, List.count_cons] at ih ⊢
          omega
        · simp [firedHandlers, List.filter_cons, List.count_cons, h2] at ih ⊢
          exact ih
      · simp [firedHandlers, List.filter_cons, List.count_cons, h1,
          Ne.symm h1] at ih ⊢
        exact ih

/-- An emission handles the hook's handler zero times when its
(event, handler) pair is unbound. -/
theorem pollIncidentsEmit_count_zero (st : PollIncidentsState)
    (handler : Nat) (data : IncidentUpdatePayload)
    (hzero : st.channel.count ("incident-change", handler) = 0) :
    pollIncidentsEmit handler data st = st := by
  unfold pollIncidentsEmit
  rw [foldl_const, firedHandlers_count, hzero]
  rfl

/-- An emission handles the hook's handler exactly once when its
(event, handler) pair is bound exactly once. -/
theorem pollIncidentsEmit_count_one (st : PollIncidentsState)
    (handler : Nat) (data : IncidentUpdatePayload)
    (hone : st.channel.count ("incident-change", handler) = 1) :
    pollIncidentsEmit handler data st = pollIncidentsHandleIncoming data st := by
  unfold pollIncidentsEmit
  rw [foldl_const, firedHandlers_count, hone]
  rfl

/-- Unbinding right after binding a pair not previously bound restores
the channel exactly. -/
theorem unbindEvent_bindEvent (ch : Channel) (e : String) (h : Nat)
    (hfresh : (e, h) ∉ ch) : unbindEvent (bindEvent ch e h) e h = ch := by
  unfold bindEvent unbindEvent
  rw [List.filter_append]
  have h1 : List.filter (fun b => !(b.1 == e && b.2 == h)) [(e, h)] = [] := by
    simp
  rw [h1, List.append_nil]
  apply List.filter_eq_self.mpr
  intro b hb
  obtain ⟨b1, b2⟩ := b
  by_cases hbe : b1 = e
  · by_cases hbh : b2 = h
    · subst hbe
      subst hbh
      exact absurd hb hfresh
    · simp [hbh]
  · simp [hbe]

/-! ### Claim theorems -/

/-- C1: with the client ready, `useIncidents(true, null, 20, 0,
{id:"creation_time", desc:true}, "")` computes exactly the key
`/incidents?candidate=true&limit=20&offset=0&sorting=-creation_time`:
`predicted` and `cel` are omitted, the parameters appear in this order,
and the descending sort is rendered with a leading `-`. -/
theorem useIncidents_example_key :
    useIncidentsKey true (some true) none 20 0 ⟨"creation_time", true⟩ "" =
      some "/incidents?candidate=true&limit=20&offset=0&sorting=-creation_time" := by
  decide

/-- C2: query-string construction in `useIncidents` is deterministic —
two invocations with identical logical parameters compute identical
resource keys. -/
theorem useIncidentsKey_deterministic (r₁ r₂ : Bool) (c₁ c₂ p₁ p₂ : Option Bool)
    (l₁ l₂ o₁ o₂ : Nat) (s₁ s₂ : Sorting) (e₁ e₂ : String)
    (hr : r₁ = r₂) (hc : c₁ = c₂) (hp : p₁ = p₂) (hl : l₁ = l₂) (ho : o₁ = o₂)
    (hs : s₁ = s₂) (he : e₁ = e₂) :
    useIncidentsKey r₁ c₁ p₁ l₁ o₁ s₁ e₁ =
      useIncidentsKey r₂ c₂ p₂ l₂ o₂ s₂ e₂ := by
  subst hr
  subst hc
  subst hp
  subst hl
  subst ho
  subst hs
  subst he
  rfl

/-- Witness for C2 at a concrete parameter set. -/
theorem useIncidentsKey_deterministic_witness :
    useIncidentsKey true (some true) none 20 0 ⟨"creation_time", true⟩ "" =
      useIncidentsKey true (some true) none 20 0 ⟨"creation_time", true⟩ "" :=
  useIncidentsKey_deterministic true true (some true) (some true) none none
    20 20 0 0 ⟨"creation_time", true⟩ ⟨"creation_time", true⟩ "" ""
    rfl rfl rfl rfl rfl rfl rfl

/-- C4 counterexample: calling `useIncidents` with `candidate = undefined`
does not omit the parameter: the default initializer (line 43, `= true`)
applies, so `candidate=true` is included in the query string. -/
theorem useIncidents_candidate_undefined_counterexample :
    candidateArg none = some true ∧
    ("candidate", "true") ∈
      useIncidentsParams (candidateArg none) (predictedArg none) 20 0
        ⟨"creation_time", true⟩ "" :=
  ⟨rfl, by decide⟩

/-- C4 amended: passing `candidate = null` omits the `candidate`
parameter entirely while `candidate = false` includes `candidate=false`;
passing `candidate = undefined`, however, triggers the default
initializer `= true`, so `candidate=true` is included.  For `predicted`,
whose default is `null`, both `null` and `undefined` omit the parameter,
and `predicted = false` includes `predicted=false`. -/
theorem useIncidents_tristate_defaults (c p : Option Bool)
    (l o : Nat) (s : Sorting) (cel : String) :
    (∀ v, ("candidate", v) ∉
        useIncidentsParams (candidateArg (some none)) p l o s cel) ∧
    ("candidate", "false") ∈
      useIncidentsParams (candidateArg (some (some false))) p l o s cel ∧
    ("candidate", "true") ∈
      useIncidentsParams (candidateArg none) p l o s cel ∧
    (∀ v, ("predicted", v) ∉
        useIncidentsParams c (predictedArg (some none)) l o s cel) ∧
    (∀ v, ("predicted", v) ∉
        useIncidentsParams c (predictedArg none) l o s cel) ∧
    ("predicted", "false") ∈
      useIncidentsParams c (predictedArg (some (some false))) l o s cel := by
  refine ⟨?_, ?_, ?_, ?_, ?_, ?_⟩
  · intro v
    rw [useIncidentsParams_eq]
    cases p <;> by_cases hcel : cel = "" <;> simp [hcel, candidateArg]
  · rw [useIncidentsParams_eq]
    simp [boolToString, candidateArg]
  · rw [useIncidentsParams_eq]
    simp [boolToString, candidateArg]
  · intro v
    rw [useIncidentsParams_eq]
    cases c <;> by_cases hcel : cel = "" <;> simp [hcel, predictedArg]
  · intro v
    rw [useIncidentsParams_eq]
    cases c <;> by_cases hcel : cel = "" <;> simp [hcel, predictedArg]
  · rw [useIncidentsParams_eq]
    cases c <;> simp [boolToString, predictedArg]

/-- C5: `useIncident` with the empty (falsy) incident id computes a null
key and issues no fetch, whether or not the client is ready. -/
theorem useIncident_falsy_id_key_null (ready : Bool) :
    useIncidentKey ready "" = none ∧
    swrIssuesFetch (useIncidentKey ready "") = false := by
  cases ready <;> exact ⟨by decide, by decide⟩

/-- C6 counterexample: `useIncidentAlerts` with the falsy incident id
`""` and a ready client computes a non-null key — the fetch is performed,
contradicting the claimed no-op key. -/
theorem useIncidentAlerts_falsy_id_counterexample :
    useIncidentAlertsKey true "" 20 0 =
      some "/incidents//alerts?limit=20&offset=0" ∧
    useIncidentAlertsKey true "" 20 0 ≠ none ∧
    swrIssuesFetch (useIncidentAlertsKey true "" 20 0) = true := by
  refine ⟨by decide, by decide, rfl⟩

/-- C6 amended: `useIncidentAlerts` applies no falsy-check to
`incidentId`: its key is null exactly while the client is not ready; with
a ready client and a falsy id the key is
`/incidents//alerts?limit={limit}&offset={offset}` and a fetch is
issued. -/
theorem useIncidentAlerts_key_ignores_id (limit offset : Nat) :
    useIncidentAlertsKey true "" limit offset =
      some ("/incidents//alerts?limit=" ++ toString limit ++ "&offset="
        ++ toString offset) ∧
    swrIssuesFetch (useIncidentAlertsKey true "" limit offset) = true ∧
    useIncidentAlertsKey false "" limit offset = none := by
  exact ⟨rfl, rfl, rfl⟩

/-- C3 counterexample: `useIncident` with the client not ready computes a
null key, but its returned `isLoading` is the collaborator's flag, which
is false for a null key — not true as claimed. -/
theorem useIncident_not_ready_isLoading_counterexample :
    useIncidentKey false "incident-1" = none ∧
    ¬ (useIncidentIsLoading false "incident-1" false = true) := by
  exact ⟨rfl, by decide⟩

/-- C3 amended: while the client is not ready every read hook's key is
null, so no fetch is issued; `useIncidents` additionally reports
`isLoading = true` whenever no `fallbackData` option was supplied, while
the five remaining read hooks return the collaborator's `isLoading`
unchanged, which is false while the key is null. -/
theorem readHooks_not_ready (candidate predicted : Option Bool)
    (limit offset : Nat) (sorting : Sorting) (cel incidentId : String)
    (resolved : Bool) :
    useIncidentsKey false candidate predicted limit offset sorting cel = none ∧
    useIncidentKey false incidentId = none ∧
    useIncidentAlertsKey false incidentId limit offset = none ∧
    useIncidentFutureIncidentsKey false incidentId = none ∧
    useIncidentWorkflowExecutionsKey false incidentId limit offset = none ∧
    useIncidentsMetaKey false = none ∧
    swrIssuesFetch
      (useIncidentsKey false candidate predicted limit offset sorting cel)
      = false ∧
    swrIssuesFetch (useIncidentKey false incidentId) = false ∧
    useIncidentsIsLoading false false resolved candidate predicted limit offset
      sorting cel = true ∧
    useIncidentIsLoading false incidentId resolved = false ∧
    useIncidentAlertsIsLoading false incidentId limit offset resolved = false ∧
    useIncidentFutureIncidentsIsLoading false incidentId resolved = false ∧
    useIncidentWorkflowExecutionsIsLoading false incidentId limit offset
      resolved = false ∧
    useIncidentsMetaIsLoading false resolved = false := by
  refine ⟨rfl, rfl, rfl, rfl, rfl, rfl, rfl, rfl, ?_, rfl, rfl, rfl, rfl, rfl⟩
  simp [useIncidentsIsLoading, swrIsLoading, useIncidentsKey]

/-- C7: while `usePollIncidentAlerts` is mounted, an emission of
`"incident-change"` invokes the bound resource's `mutate` exactly once
(one revalidation: `n` becomes `n + 1`); the unmount cleanup unbinds the
same (event, handler) pair the effect bound, restoring the channel, so
the same emission afterwards causes zero revalidations. -/
theorem usePollIncidentAlerts_subscribe_unsubscribe (ch : Channel)
    (handler : Nat) (data : IncidentUpdatePayload) (n : Nat)
    (hfresh : ("incident-change", handler) ∉ ch) :
    pollIncidentAlertsEmit handler data (pollIncidentAlertsMount ch handler) n
      = n + 1 ∧
    pollIncidentAlertsUnmount (pollIncidentAlertsMount ch handler) handler
      = ch ∧
    pollIncidentAlertsEmit handler data
      (pollIncidentAlertsUnmount (pollIncidentAlertsMount ch handler) handler)
      n = n := by
  have hzero : ch.count ("incident-change", handler) = 0 :=
    List.count_eq_zero.mpr hfresh
  have hunb : pollIncidentAlertsUnmount (pollIncidentAlertsMount ch handler)
      handler = ch :=
    unbindEvent_bindEvent ch "incident-change" handler hfresh
  refine ⟨?_, hunb, ?_⟩
  · unfold pollIncidentAlertsEmit
    rw [foldl_const, firedHandlers_count]
    have hone : (pollIncidentAlertsMount ch handler).count
        ("incident-change", handler) = 1 := by
      simp [pollIncidentAlertsMount, bindEvent, List.count_append, hzero]
    rw [hone]
    rfl
  · unfold pollIncidentAlertsEmit
    rw [hunb, foldl_const, firedHandlers_count, hzero]
    rfl

/-- Witness for C7: a fresh handler on the empty channel. -/
theorem usePollIncidentAlerts_subscribe_unsubscribe_witness :
    pollIncidentAlertsEmit 7 ⟨none⟩ (pollIncidentAlertsMount [] 7) 0 = 0 + 1 ∧
    pollIncidentAlertsUnmount (pollIncidentAlertsMount [] 7) 7 = [] ∧
    pollIncidentAlertsEmit 7 ⟨none⟩
      (pollIncidentAlertsUnmount (pollIncidentAlertsMount [] 7) 7) 0 = 0 :=
  usePollIncidentAlerts_subscribe_unsubscribe [] 7 ⟨none⟩ 0 (by simp)

/-- C8: while `paused = true` the `usePollIncidents` effect installs no
subscription, so an emission of `"incident-change"` changes nothing — no
mutator call and no token change; toggling `paused` from true to false
(the paused effect installed no cleanup; the unpaused effect binds)
re-establishes the subscription, and a subsequent emission calls the
mutator and sets a fresh token. -/
theorem usePollIncidents_paused (s : PollIncidentsState) (handler : Nat)
    (data : IncidentUpdatePayload)
    (hfresh : ("incident-change", handler) ∉ s.channel) :
    pollIncidentsEffect true handler s = s ∧
    pollIncidentsEmit handler data s = s ∧
    ("incident-change", handler) ∈
      (pollIncidentsToggle true false handler s).channel ∧
    (pollIncidentsEmit handler data
        (pollIncidentsToggle true false handler s)).mutateCalls
      = s.mutateCalls + 1 ∧
    (pollIncidentsEmit handler data
        (pollIncidentsToggle true false handler s)).incidentChangeToken
      = some s.uuidSupply := by
  have hzero : s.channel.count ("incident-change", handler) = 0 :=
    List.count_eq_zero.mpr hfresh
  have htog : pollIncidentsToggle true false handler s =
      { s with channel := bindEvent s.channel "incident-change" handler } := rfl
  have hcount : ({ s with
        channel := bindEvent s.channel "incident-change" handler } :
      PollIncidentsState).channel.count ("incident-change", handler) = 1 := by
    simp [bindEvent, List.count_append, hzero]
  have hemit := pollIncidentsEmit_count_one
    { s with channel := bindEvent s.channel "incident-change" handler }
    handler data hcount
  refine ⟨rfl, pollIncidentsEmit_count_zero s handler data hzero, ?_, ?_, ?_⟩
  · rw [htog]
    simp [bindEvent]
  · rw [htog, hemit]
    rfl
  · rw [htog, hemit]
    rfl

/-- Witness for C8: a fresh handler on the empty channel. -/
theorem usePollIncidents_paused_witness :
    pollIncidentsEffect true 5 ⟨[], 0, none, 0⟩ = ⟨[], 0, none, 0⟩ ∧
    pollIncidentsEmit 5 ⟨some "i-1"⟩ ⟨[], 0, none, 0⟩ = ⟨[], 0, none, 0⟩ ∧
    ("incident-change", 5) ∈
      (pollIncidentsToggle true false 5 ⟨[], 0, none, 0⟩).channel ∧
    (pollIncidentsEmit 5 ⟨some "i-1"⟩
        (pollIncidentsToggle true false 5 ⟨[], 0, none, 0⟩)).mutateCalls
      = (⟨[], 0, none, 0⟩ : PollIncidentsState).mutateCalls + 1 ∧
    (pollIncidentsEmit 5 ⟨some "i-1"⟩
        (pollIncidentsToggle true false 5 ⟨[], 0, none, 0⟩)).incidentChangeToken
      = some (⟨[], 0, none, 0⟩ : PollIncidentsState).uuidSupply :=
  usePollIncidents_paused ⟨[], 0, none, 0⟩ 5 ⟨some "i-1"⟩ (by simp)

/-- C9: with the hook's handler bound exactly once, every emission of
`"incident-change"` both calls the supplied mutator once and replaces
`incidentChangeToken` with a freshly generated opaque value: the next
unused UUID, different from the previous token. -/
theorem usePollIncidents_change_token (s : PollIncidentsState)
    (handler : Nat) (data : IncidentUpdatePayload)
    (hone : s.channel.count ("incident-change", handler) = 1)
    (htok : ∀ t, s.incidentChangeToken = some t → t < s.uuidSupply) :
    (pollIncidentsEmit handler data s).mutateCalls = s.mutateCalls + 1 ∧
    (pollIncidentsEmit handler data s).incidentChangeToken
      = some s.uuidSupply ∧
    (pollIncidentsEmit handler data s).incidentChangeToken
      ≠ s.incidentChangeToken := by
  rw [pollIncidentsEmit_count_one s handler data hone]
  refine ⟨rfl, rfl, ?_⟩
  cases htokval : s.incidentChangeToken with
  | none => simp [pollIncidentsHandleIncoming]
  | some t =>
      have hlt := htok t htokval
      simp only [pollIncidentsHandleIncoming, ne_eq, Option.some_inj]
      omega

/-- Witness for C9: a singleton channel holding the hook's binding. -/
theorem usePollIncidents_change_token_witness :
    (pollIncidentsEmit 5 ⟨none⟩
        ⟨[("incident-change", 5)], 0, none, 0⟩).mutateCalls
      = (⟨[("incident-change", 5)], 0, none, 0⟩ :
          PollIncidentsState).mutateCalls + 1 ∧
    (pollIncidentsEmit 5 ⟨none⟩
        ⟨[("incident-change", 5)], 0, none, 0⟩).incidentChangeToken
      = some (⟨[("incident-change", 5)], 0, none, 0⟩ :
          PollIncidentsState).uuidSupply ∧
    (pollIncidentsEmit 5 ⟨none⟩
        ⟨[("incident-change", 5)], 0, none, 0⟩).incidentChangeToken
      ≠ (⟨[("incident-change", 5)], 0, none, 0⟩ :
          PollIncidentsState).incidentChangeToken :=
  usePollIncidents_change_token ⟨[("incident-change", 5)], 0, none, 0⟩ 5 ⟨none⟩
    (by decide) (by intro t ht; cases ht)

/-- C10: no poll-hook handler inspects its event payload: handler runs
and emissions are identical for any two payloads, each handler run is
exactly one revalidation, and concretely an event carrying
`incident_id = null` or an unrelated incident id still revalidates the
hook's resource. -/
theorem pollHandlers_ignore_payload :
    (∀ (d₁ d₂ : IncidentUpdatePayload) (s : PollIncidentsState) (h : Nat),
        pollIncidentsEmit h d₁ s = pollIncidentsEmit h d₂ s) ∧
    (∀ (d : IncidentUpdatePayload) (s : PollIncidentsState),
        (pollIncidentsHandleIncoming d s).mutateCalls = s.mutateCalls + 1) ∧
    (∀ (d₁ d₂ : IncidentUpdatePayload) (h : Nat) (ch : Channel) (n : Nat),
        pollIncidentAlertsEmit h d₁ ch n = pollIncidentAlertsEmit h d₂ ch n) ∧
    (∀ (d : IncidentUpdatePayload) (n : Nat),
        pollIncidentAlertsHandleIncoming d n = n + 1) ∧
    (∀ (d : IncidentUpdatePayload) (n : Nat),
        pollIncidentCommentsHandleIncoming d n = n + 1) ∧
    pollIncidentAlertsEmit 1 ⟨none⟩ [("incident-change", 1)] 0 = 1 ∧
    pollIncidentsEmit 1 ⟨some "a-different-incident"⟩
        ⟨[("incident-change", 1)], 0, none, 0⟩
      = ⟨[("incident-change", 1)], 1, some 0, 1⟩ :=
  ⟨fun _ _ _ _ => rfl, fun _ _ => rfl, fun _ _ _ _ _ => rfl, fun _ _ => rfl,
    fun _ _ => rfl, by decide, by decide⟩

end Keep
